import Mathlib

/-!
A shallow embedding of the flywheel control core (src/http.go): the state
machine, the start/stop lifecycle orchestration, the ping/pong protocol, the
periodic poll, the health-notification branch of the main loop, the status
snapshot, and the HTTP front end.

Machine time (time.Time) is modelled as a Nat instant; time.Duration as a Nat.
Each top-level event handler receives the current instant as an explicit
parameter `now` (the source calls time.Now() possibly more than once inside a
single event; those calls are collapsed to the one instant of the event).
External AWS calls (EC2 / autoscaling) are modelled by an environment record
of response functions, so the orchestration code itself is embedded exactly
and its behaviour is quantified over every possible environment.
-/

namespace Flywheel

/-- Modelled from the spec: the five state constants are not in src/ (only the
stringify helper and constants file is missing); the spec fixes an enumerated
int with members in order STOPPED, STARTING, STARTED, STOPPING, UNHEALTHY, and
requires STOPPED to be the Go zero value (a fresh Flywheel with no snapshot
defaults to STOPPED), so Go iota numbering from 0 is forced. -/
def STOPPED : Nat := 0

/-- Modelled from the spec: see STOPPED. -/
def STARTING : Nat := 1

/-- Modelled from the spec: see STOPPED. -/
def STARTED : Nat := 2

/-- Modelled from the spec: see STOPPED. -/
def STOPPING : Nat := 3

/-- Modelled from the spec: see STOPPED. -/
def UNHEALTHY : Nat := 4

/-- Modelled from the spec: the stringify helper StatusString is not in src/;
the spec describes "enumerated int state constants with a stringify helper"
rendering the human-readable state name. -/
def StatusString (s : Nat) : String :=
  if s = STOPPED then "STOPPED"
  else if s = STARTING then "STARTING"
  else if s = STARTED then "STARTED"
  else if s = STOPPING then "STOPPING"
  else if s = UNHEALTHY then "UNHEALTHY"
  else "UNKNOWN"

/-- The configuration fields the core consults (read-only): raw instance ids,
the autoscaling Terminate map (group name to restore size), the autoscaling
Stop list, the vhost map, the default endpoint, and the idle timeout. -/
structure Config where
  instances : List String
  terminate : List (String × Nat)
  stop : List String
  vhosts : List (String × String)
  endpoint : String
  idleTimeout : Nat
  deriving Repr, DecidableEq

/-- Responses of the external AWS clients (ec2 / autoscaling), one function
per operation the core invokes. asgDescribe returns the member instance ids
of the described group. -/
structure AwsEnv where
  ec2StartInstances : List String → Except String Unit
  ec2StopInstances : List String → Except String Unit
  asgUpdate : String → Nat → Nat → Except String Unit
  asgDescribe : String → Except String (List String)
  asgSuspend : String → String → Except String Unit

/-- The mutable core fields of the Flywheel struct owned by the authority
loop: status, ready, stopAt, lastStarted, lastStopped. -/
structure CoreState where
  status : Nat
  ready : Bool
  stopAt : Nat
  lastStarted : Nat
  lastStopped : Nat
  deriving Repr, DecidableEq

/-- Ping - the request record sent to the flywheel goroutine (the reply
channel is represented by RecvPing returning the Pong). -/
structure Ping where
  setTimeout : Nat
  requestStart : Bool
  requestStop : Bool
  noop : Bool
  deriving Repr, DecidableEq

/-- Pong - result of the ping request. Err is the optional error. -/
structure Pong where
  Status : Nat
  StatusName : String
  Err : Option String
  LastStarted : Nat
  LastStopped : Nat
  StopAt : Nat
  deriving Repr, DecidableEq

/-- New - the core fields of the freshly constructed Flywheel: stopAt is set
to the construction-time now; status, ready, lastStarted, lastStopped are Go
zero values. -/
def New (now : Nat) : CoreState :=
  { status := STOPPED, ready := false, stopAt := now
    lastStarted := 0, lastStopped := 0 }

/-- startInstances: skip when no raw instances are configured, otherwise one
ec2 StartInstances call on the configured ids. -/
def startInstances (env : AwsEnv) (cfg : Config) : Except String Unit :=
  if cfg.instances = [] then .ok () else env.ec2StartInstances cfg.instances

/-- unterminateAutoScaling: for each group of the Terminate map, set min and
max size back to the configured size; return the first error. -/
def unterminateAutoScaling (env : AwsEnv) : List (String × Nat) → Except String Unit
  | [] => .ok ()
  | (g, size) :: rest =>
    match env.asgUpdate g size size with
    | .error e => .error e
    | .ok _ => unterminateAutoScaling env rest

/-- startAutoScaling: for each group of the Stop list, describe the group and
start its member instances; return the first error. -/
def startAutoScaling (env : AwsEnv) : List String → Except String Unit
  | [] => .ok ()
  | g :: rest =>
    match env.asgDescribe g with
    | .error e => .error e
    | .ok members =>
      match env.ec2StartInstances members with
      | .error e => .error e
      | .ok _ => startAutoScaling env rest

/-- The body of Start after lastStarted is recorded: err = startInstances();
if err == nil err = unterminateAutoScaling(); if err == nil err =
startAutoScaling(). -/
def startSequence (env : AwsEnv) (cfg : Config) : Except String Unit :=
  match startInstances env cfg with
  | .error e => .error e
  | .ok _ =>
    match unterminateAutoScaling env cfg.terminate with
    | .error e => .error e
    | .ok _ => startAutoScaling env cfg.stop

/-- Start: records lastStarted = now first, runs the start sequence; on error
returns it with no further mutation; on success sets ready = false,
stopAt = now + idleTimeout, status = STARTING. -/
def Start (env : AwsEnv) (cfg : Config) (now : Nat) (fw : CoreState) :
    CoreState × Option String :=
  match startSequence env cfg with
  | .error e => ({ fw with lastStarted := now }, some e)
  | .ok _ =>
    ({ fw with
        lastStarted := now, ready := false,
        stopAt := now + cfg.idleTimeout, status := STARTING }, none)

/-- stopInstances: skip when no raw instances are configured, otherwise one
ec2 StopInstances call on the configured ids. -/
def stopInstances (env : AwsEnv) (cfg : Config) : Except String Unit :=
  if cfg.instances = [] then .ok () else env.ec2StopInstances cfg.instances

/-- terminateAutoScaling: for each group of the Terminate map, shrink min and
max size to zero; return the first error. -/
def terminateAutoScaling (env : AwsEnv) : List (String × Nat) → Except String Unit
  | [] => .ok ()
  | (g, _) :: rest =>
    match env.asgUpdate g 0 0 with
    | .error e => .error e
    | .ok _ => terminateAutoScaling env rest

/-- stopAutoScaling: for each group of the Stop list, describe it, suspend
its ReplaceUnhealthy process, then stop its member instances; return the
first error. -/
def stopAutoScaling (env : AwsEnv) : List String → Except String Unit
  | [] => .ok ()
  | g :: rest =>
    match env.asgDescribe g with
    | .error e => .error e
    | .ok members =>
      match env.asgSuspend g "ReplaceUnhealthy" with
      | .error e => .error e
      | .ok _ =>
        match env.ec2StopInstances members with
        | .error e => .error e
        | .ok _ => stopAutoScaling env rest

/-- The body of Stop after lastStopped is recorded: err = stopInstances();
if err == nil err = terminateAutoScaling(); if err == nil err =
stopAutoScaling(). -/
def stopSequence (env : AwsEnv) (cfg : Config) : Except String Unit :=
  match stopInstances env cfg with
  | .error e => .error e
  | .ok _ =>
    match terminateAutoScaling env cfg.terminate with
    | .error e => .error e
    | .ok _ => stopAutoScaling env cfg.stop

/-- Stop: records lastStopped = now first, runs the stop sequence; on error
returns it with no further mutation; on success sets ready = false,
status = STOPPING, stopAt = lastStopped (= now). -/
def Stop (env : AwsEnv) (cfg : Config) (now : Nat) (fw : CoreState) :
    CoreState × Option String :=
  match stopSequence env cfg with
  | .error e => ({ fw with lastStopped := now }, some e)
  | .ok _ =>
    ({ fw with
        lastStopped := now, ready := false,
        status := STOPPING, stopAt := now }, none)

/-- The state mutation of RecvPing (its switch on fw.status), returning the
new core state and the error recorded into pong.Err. States other than
STOPPED and STARTED have no case: no mutation, no error. -/
def RecvPingCore (env : AwsEnv) (cfg : Config) (now : Nat) (fw : CoreState)
    (p : Ping) : CoreState × Option String :=
  if fw.status = STOPPED then
    if p.requestStart then Start env cfg now fw else (fw, none)
  else if fw.status = STARTED then
    if p.noop then (fw, none)
    else if p.requestStop then Stop env cfg now fw
    else if p.setTimeout ≠ 0 then ({ fw with stopAt := now + p.setTimeout }, none)
    else ({ fw with stopAt := now + cfg.idleTimeout }, none)
  else (fw, none)

/-- The Pong built at the end of RecvPing from the (possibly just-mutated)
core fields and the recorded error. -/
def pongOf (fw : CoreState) (err : Option String) : Pong :=
  { Status := fw.status, StatusName := StatusString fw.status, Err := err
    LastStarted := fw.lastStarted, LastStopped := fw.lastStopped
    StopAt := fw.stopAt }

/-- RecvPing - process one user ping: mutate state as dictated by the current
status and the ping flags, then send exactly one Pong snapshot of the
post-mutation fields on the reply channel. -/
def RecvPing (env : AwsEnv) (cfg : Config) (now : Nat) (fw : CoreState)
    (p : Ping) : CoreState × Pong :=
  ((RecvPingCore env cfg now fw p).1,
   pongOf (RecvPingCore env cfg now fw p).1 (RecvPingCore env cfg now fw p).2)

/-- Poll - the periodic tick. The second component counts how many times the
Stop lifecycle sequence is invoked during this tick. time.Now().After(stopAt)
is the strict comparison stopAt < now. -/
def Poll (env : AwsEnv) (cfg : Config) (now : Nat) (fw : CoreState) :
    CoreState × Nat :=
  if fw.status = STARTED then
    if fw.stopAt < now then
      ({ (Stop env cfg now fw).1 with status := STOPPING }, 1)
    else (fw, 0)
  else if fw.status = STOPPING then
    (if fw.ready then { fw with status := STOPPED } else fw, 0)
  else if fw.status = STARTING then
    (if fw.ready then
      { fw with status := STARTED, stopAt := now + cfg.idleTimeout }
     else fw, 0)
  else (fw, 0)

/-- The health-notification branch of Spin: a notification equal to the
current status does nothing; otherwise, if the notified value is STARTED and
stopAt is already before now, stopAt is rearmed to now + idleTimeout; then
status is set to the notified value. -/
def HealthNotify (cfg : Config) (now : Nat) (fw : CoreState) (st : Nat) :
    CoreState :=
  if fw.status = st then fw
  else if st = STARTED ∧ fw.stopAt < now then
    { fw with stopAt := now + cfg.idleTimeout, status := st }
  else { fw with status := st }

/-- The JSON object serialized from a Pong by encoding/json. Field tags:
Status has tag dash and is excluded from both marshal and unmarshal;
StatusName is bound to key status; LastStarted and LastStopped are bound to
last-started and last-stopped (omitempty has no effect on struct-typed
time.Time, so they are always written); StopAt is bound to stop-due-at. Err
is nil in every record written by WriteStatusFile, so no error key is
written and none is modelled. -/
structure StatusFileJson where
  status : String
  lastStarted : Nat
  lastStopped : Nat
  stopAt : Nat
  deriving Repr, DecidableEq

/-- json.Marshal of a Pong (with nil Err): only the json-tagged fields are
written; the Status int carries the dash tag and is dropped. -/
def marshalPong (p : Pong) : StatusFileJson :=
  { status := p.StatusName, lastStarted := p.LastStarted
    lastStopped := p.LastStopped, stopAt := p.StopAt }

/-- json.Unmarshal of a status file into a Pong: the Status int carries the
dash tag, so it is left at its zero value 0; the status key populates the
StatusName string; the timestamps and stop-due-at are restored. -/
def unmarshalPong (j : StatusFileJson) : Pong :=
  { Status := 0, StatusName := j.status, Err := none
    LastStarted := j.lastStarted, LastStopped := j.lastStopped
    StopAt := j.stopAt }

/-- WriteStatusFile: build a Pong from the current status (int and name) and
the two timestamps (StopAt is left at its zero value), marshal it, and write
it; this returns the written record. -/
def WriteStatusFile (fw : CoreState) : StatusFileJson :=
  marshalPong
    { Status := fw.status, StatusName := StatusString fw.status, Err := none,
      LastStarted := fw.lastStarted, LastStopped := fw.lastStopped,
      StopAt := 0 }

/-- ReadStatusFile on a successfully read and parsed file: unmarshal the
record and assign fw.status, fw.lastStarted, fw.lastStopped from the
resulting Pong; no other field is touched. -/
def ReadStatusFile (fw : CoreState) (file : StatusFileJson) : CoreState :=
  { fw with
      status := (unmarshalPong file).Status,
      lastStarted := (unmarshalPong file).LastStarted,
      lastStopped := (unmarshalPong file).LastStopped }

/-- An inbound HTTP request as the front end consumes it: the Host header and
the parsed query (url.Values: key to list of values). -/
structure HttpRequest where
  host : String
  query : List (String × List String)
  deriving Repr, DecidableEq

/-- url.Values lookup: the list of values bound to a key, if present. -/
def getQuery (q : List (String × List String)) (key : String) :
    Option (List String) :=
  (q.find? (fun kv => kv.1 == key)).map Prod.snd

/-- url.Values.Del: remove every binding of the key. -/
def delQuery (q : List (String × List String)) (key : String) :
    List (String × List String) :=
  q.filter (fun kv => kv.1 != key)

/-- url.Values.Set: replace the bindings of the key with the single value. -/
def setQuery (q : List (String × List String)) (key v : String) :
    List (String × List String) :=
  delQuery q key ++ [(key, [v])]

/-- The start argument ServeHTTP computes for SendPing:
ok && flywheel[0] == "start". -/
def requestStartOf (r : HttpRequest) : Bool :=
  match getQuery r.query "flywheel" with
  | some (v :: _) => v == "start"
  | _ => false

/-- SendPing: the Ping record the front end submits; only requestStart is
ever populated, every other flag keeps its zero value. -/
def SendPing (start : Bool) : Ping :=
  { setTimeout := 0, requestStart := start, requestStop := false, noop := false }

/-- ProxyEndpoint - the vhost mapped to the hostname, else the default
endpoint. -/
def ProxyEndpoint (cfg : Config) (hostname : String) : String :=
  match (cfg.vhosts.find? (fun kv => kv.1 == hostname)).map Prod.snd with
  | some vhost => vhost
  | none => cfg.endpoint

/-- The request Proxy forwards to the backend. In Go, r.URL.Query() returns a
freshly parsed copy of the query, so the Del call on that copy leaves r
unchanged: the forwarded request keeps the original query verbatim, and only
the destination host is rewritten to the resolved endpoint. -/
def proxyRequest (cfg : Config) (r : HttpRequest) : HttpRequest :=
  { r with host := ProxyEndpoint cfg r.host }

/-- The observable response action of ServeHTTP. -/
inductive HttpAction where
  | redirect (location : HttpRequest)
  | errorPage (err : String)
  | stoppedPage (selfLink : HttpRequest)
  | startingPage
  | stoppingPage
  | unhealthyPage
  | forward (req : HttpRequest)
  | noResponse
  deriving Repr, DecidableEq

/-- The response branch of ServeHTTP, given the Pong the core replied with:
if the flywheel parameter was present, redirect to the same URL with the
parameter deleted; else on a Pong error render the error page; else dispatch
on the Pong status: STOPPED renders the prompt page whose self-link carries
flywheel=start, STARTING / STOPPING / UNHEALTHY render holding pages,
STARTED forwards via Proxy. -/
def ServeHTTPAction (cfg : Config) (r : HttpRequest) (pong : Pong) :
    HttpAction :=
  if (getQuery r.query "flywheel").isSome then
    .redirect { r with query := delQuery r.query "flywheel" }
  else if pong.Err.isSome then
    .errorPage ((pong.Err).getD "")
  else if pong.Status = STOPPED then
    .stoppedPage { r with query := setQuery r.query "flywheel" "start" }
  else if pong.Status = STARTING then .startingPage
  else if pong.Status = STARTED then .forward (proxyRequest cfg r)
  else if pong.Status = STOPPING then .stoppingPage
  else if pong.Status = UNHEALTHY then .unhealthyPage
  else .noResponse

/-- ServeHTTP: ping the core with SendPing (requestStart iff the flywheel
query parameter is present with first value start), then choose the response
from the Pong. The pair is the core state after the ping and the response
action. -/
def ServeHTTP (env : AwsEnv) (cfg : Config) (now : Nat) (fw : CoreState)
    (r : HttpRequest) : CoreState × HttpAction :=
  ((RecvPing env cfg now fw (SendPing (requestStartOf r))).1,
   ServeHTTPAction cfg r
     (RecvPing env cfg now fw (SendPing (requestStartOf r))).2)

/-! Concrete fixtures used by witnesses and counterexamples. -/

/-- A configuration with one raw instance, one terminate group, one stop
group, one vhost and idleTimeout 5. -/
def cfgOne : Config :=
  { instances := ["i-1"], terminate := [("tg", 2)], stop := ["sg"],
    vhosts := [("a", "backend-a")], endpoint := "default-backend",
    idleTimeout := 5 }

/-- An environment in which every AWS call succeeds. -/
def okEnv : AwsEnv :=
  { ec2StartInstances := fun _ => .ok (), ec2StopInstances := fun _ => .ok (),
    asgUpdate := fun _ _ _ => .ok (), asgDescribe := fun _ => .ok ["m-1"],
    asgSuspend := fun _ _ => .ok () }

/-- An environment in which every AWS call fails with the same message. -/
def failEnv : AwsEnv :=
  { ec2StartInstances := fun _ => .error "aws down",
    ec2StopInstances := fun _ => .error "aws down",
    asgUpdate := fun _ _ _ => .error "aws down",
    asgDescribe := fun _ => .error "aws down",
    asgSuspend := fun _ _ => .error "aws down" }

/-- A STARTED core state with deadline 4. -/
def fwStarted : CoreState :=
  { status := STARTED, ready := true, stopAt := 4,
    lastStarted := 1, lastStopped := 2 }

/-- A STARTING core state. -/
def fwStarting : CoreState :=
  { status := STARTING, ready := false, stopAt := 4,
    lastStarted := 1, lastStopped := 2 }

/-- An UNHEALTHY core state with deadline 4. -/
def fwUnhealthy : CoreState :=
  { status := UNHEALTHY, ready := true, stopAt := 4,
    lastStarted := 1, lastStopped := 2 }

/-- A ping with no flags and no explicit deadline. -/
def plainPing : Ping :=
  { setTimeout := 0, requestStart := false, requestStop := false, noop := false }

/-- A ping with only the noop flag. -/
def noopPing : Ping :=
  { setTimeout := 0, requestStart := false, requestStop := false, noop := true }

/-- A ping with only the requestStart flag. -/
def startPing : Ping :=
  { setTimeout := 0, requestStart := true, requestStop := false, noop := false }

/-! Claim theorems. -/

/-- Claim C1: the claim says the snapshot write-then-read round-trip restores
status, lastStarted and lastStopped. The code loses the status: Pong.Status
carries the json tag dash, so WriteStatusFile serializes only the status NAME
while ReadStatusFile assigns fw.status from the never-populated Status int,
which stays at 0. At the failing input status = STARTED, writing the snapshot
and loading it into a freshly constructed authority yields status STOPPED;
only the two timestamps survive. -/
theorem writeRead_drops_status :
    ReadStatusFile (New 100) (WriteStatusFile
      { status := STARTED, ready := true, stopAt := 50,
        lastStarted := 10, lastStopped := 20 }) =
      { status := STOPPED, ready := false, stopAt := 100,
        lastStarted := 10, lastStopped := 20 } ∧
    STARTED ≠ STOPPED := by
  exact ⟨rfl, by decide⟩

/-- Claim C10: ReadStatusFile assigns only status, lastStarted and
lastStopped (the latter two from the snapshot); stopAt and ready are never
modified, so after a restart that loads any snapshot, stopAt is still the
construction-time now set by New and ready is still false. -/
theorem readStatusFile_frame (tNow : Nat) (file : StatusFileJson)
    (fw : CoreState) :
    (ReadStatusFile (New tNow) file).stopAt = tNow ∧
    (ReadStatusFile (New tNow) file).ready = false ∧
    (ReadStatusFile fw file).stopAt = fw.stopAt ∧
    (ReadStatusFile fw file).ready = fw.ready ∧
    (ReadStatusFile fw file).lastStarted = file.lastStarted ∧
    (ReadStatusFile fw file).lastStopped = file.lastStopped :=
  ⟨rfl, rfl, rfl, rfl, rfl, rfl⟩

/-- Claim C2 (counterexample): a failing Start does not leave every mutable
core field intact. From the fresh state (whose lastStarted is 0), Start at
now = 5 with every AWS call failing propagates the error, yet sets
lastStarted to 5. -/
theorem start_failure_mutates_lastStarted :
    (Start failEnv cfgOne 5 (New 0)).2 = some "aws down" ∧
    (Start failEnv cfgOne 5 (New 0)).1.lastStarted = 5 ∧
    (New 0).lastStarted = 0 ∧ (5 : Nat) ≠ 0 :=
  ⟨rfl, rfl, rfl, by decide⟩

/-- Claim C2 (amended): each lifecycle chain halts at its first error and
Start / Stop propagate that error to the caller, leaving status, ready and
stopAt (and the other timestamp) exactly as they were — but lastStarted
(for Start) resp. lastStopped (for Stop) is unconditionally set to the call
time before the failable steps run. -/
theorem lifecycle_failure_propagation (env : AwsEnv) (cfg : Config)
    (now : Nat) (fw : CoreState) :
    (∀ e, startInstances env cfg = .error e →
      startSequence env cfg = .error e) ∧
    (∀ e, startInstances env cfg = .ok () →
      unterminateAutoScaling env cfg.terminate = .error e →
      startSequence env cfg = .error e) ∧
    (∀ e, startInstances env cfg = .ok () →
      unterminateAutoScaling env cfg.terminate = .ok () →
      startAutoScaling env cfg.stop = .error e →
      startSequence env cfg = .error e) ∧
    (∀ e, startSequence env cfg = .error e →
      Start env cfg now fw = ({ fw with lastStarted := now }, some e)) ∧
    (∀ e, stopInstances env cfg = .error e →
      stopSequence env cfg = .error e) ∧
    (∀ e, stopInstances env cfg = .ok () →
      terminateAutoScaling env cfg.terminate = .error e →
      stopSequence env cfg = .error e) ∧
    (∀ e, stopInstances env cfg = .ok () →
      terminateAutoScaling env cfg.terminate = .ok () →
      stopAutoScaling env cfg.stop = .error e →
      stopSequence env cfg = .error e) ∧
    (∀ e, stopSequence env cfg = .error e →
      Stop env cfg now fw = ({ fw with lastStopped := now }, some e)) := by
  refine ⟨?_, ?_, ?_, ?_, ?_, ?_, ?_, ?_⟩
  · intro e h; simp [startSequence, h]
  · intro e h1 h2; simp [startSequence, h1, h2]
  · intro e h1 h2 h3; simp [startSequence, h1, h2, h3]
  · intro e h; simp [Start, h]
  · intro e h; simp [stopSequence, h]
  · intro e h1 h2; simp [stopSequence, h1, h2]
  · intro e h1 h2 h3; simp [stopSequence, h1, h2, h3]
  · intro e h; simp [Stop, h]

/-- Witness for the amended C2 at a concrete failing environment. -/
theorem lifecycle_failure_propagation_witness :
    Start failEnv cfgOne 7 (New 0) =
      ({ New 0 with lastStarted := 7 }, some "aws down") ∧
    Stop failEnv cfgOne 9 (New 0) =
      ({ New 0 with lastStopped := 9 }, some "aws down") :=
  ⟨(lifecycle_failure_propagation failEnv cfgOne 7 (New 0)).2.2.2.1
      "aws down" rfl,
   (lifecycle_failure_propagation failEnv cfgOne 9 (New 0)).2.2.2.2.2.2.2
      "aws down" rfl⟩

/-- The spec's notion of a pure status poll, stated over this front end's
inputs: a request that carries the flywheel directive with a value other
than start, i.e. a status-only read that neither asks to start nor is plain
proxied traffic. -/
def pureStatusPoll_spec (r : HttpRequest) : Bool :=
  match getQuery r.query "flywheel" with
  | some (v :: _) => v != "start"
  | _ => false

/-- Claim C3 (counterexample): the front end does not set the noop flag on
pure status polls. For the concrete request carrying flywheel=status, the
Ping built by ServeHTTP via SendPing has noop = false. -/
theorem statusPoll_ping_not_noop :
    pureStatusPoll_spec { host := "h", query := [("flywheel", ["status"])] } = true ∧
    (SendPing (requestStartOf
      { host := "h", query := [("flywheel", ["status"])] })).noop = false :=
  ⟨rfl, rfl⟩

/-- Claim C3 (amended): the front end sets requestStart exactly when the
flywheel query parameter is present with first value start; it never sets
the noop flag (nor requestStop, nor an explicit deadline): every Ping it
builds carries noop = false, so a status-only read is submitted as a plain
ping. -/
theorem sendPing_flags (r : HttpRequest) :
    ((SendPing (requestStartOf r)).requestStart = true ↔
      ∃ rest, getQuery r.query "flywheel" = some ("start" :: rest)) ∧
    (SendPing (requestStartOf r)).noop = false ∧
    (SendPing (requestStartOf r)).requestStop = false ∧
    (SendPing (requestStartOf r)).setTimeout = 0 := by
  refine ⟨?_, rfl, rfl, rfl⟩
  simp only [SendPing, requestStartOf]
  rcases h : getQuery r.query "flywheel" with _ | vs
  · simp
  · rcases vs with _ | ⟨v, rest⟩
    · simp
    · simp [beq_iff_eq]

/-- Claim C4: whenever ServeHTTP forwards a request to the backend (the
STARTED branch), the forwarded request's query carries no flywheel
parameter: requests carrying the directive are answered with a redirect and
never forwarded, and the forwarded request keeps the original query. -/
theorem forwarded_request_has_no_directive (env : AwsEnv) (cfg : Config)
    (now : Nat) (fw : CoreState) (r req : HttpRequest)
    (h : (ServeHTTP env cfg now fw r).2 = .forward req) :
    getQuery req.query "flywheel" = none := by
  simp only [ServeHTTP] at h
  unfold ServeHTTPAction at h
  split_ifs at h with h1 h2 h3 h4 h5 h6 h7
  all_goals simp_all [proxyRequest, Option.not_isSome_iff_eq_none]
  subst h
  exact h1

/-- Witness for C4: a directive-free request proxied while STARTED. -/
theorem forwarded_request_has_no_directive_witness :
    getQuery ({ host := "backend-a", query := [("x", ["1"])] }
      : HttpRequest).query "flywheel" = none :=
  forwarded_request_has_no_directive okEnv cfgOne 10 fwStarted
    { host := "a", query := [("x", ["1"])] }
    { host := "backend-a", query := [("x", ["1"])] } rfl

/-- Claim C5: a health notification equal to the current status changes
nothing; a differing one sets status to the notified value; if additionally
the notified value is STARTED and the deadline is already in the past,
stopAt is rearmed to now + idleTimeout; and whenever the deadline has not
yet elapsed it is preserved unchanged. -/
theorem healthNotify_rules (cfg : Config) (now : Nat) (fw : CoreState)
    (st : Nat) :
    (st = fw.status → HealthNotify cfg now fw st = fw) ∧
    (st ≠ fw.status → (HealthNotify cfg now fw st).status = st) ∧
    (st ≠ fw.status → st = STARTED → fw.stopAt < now →
      (HealthNotify cfg now fw st).stopAt = now + cfg.idleTimeout) ∧
    (¬ fw.stopAt < now → (HealthNotify cfg now fw st).stopAt = fw.stopAt) := by
  refine ⟨?_, ?_, ?_, ?_⟩
  · intro h; simp [HealthNotify, h.symm]
  · intro h
    unfold HealthNotify
    split_ifs <;> simp_all [eq_comm]
  · intro h hst hlt
    unfold HealthNotify
    split_ifs <;> simp_all [eq_comm]
  · intro h
    unfold HealthNotify
    split_ifs <;> simp_all

/-- Witness for C5: an UNHEALTHY-to-STARTED flap with an elapsed deadline
rearms the deadline, and a STARTED notification while already STARTED is a
no-op. -/
theorem healthNotify_rules_witness :
    (HealthNotify cfgOne 10 fwUnhealthy STARTED).stopAt =
      10 + cfgOne.idleTimeout ∧
    HealthNotify cfgOne 10 fwStarted STARTED = fwStarted :=
  ⟨(healthNotify_rules cfgOne 10 fwUnhealthy STARTED).2.2.1
      (by decide) rfl (by decide),
   (healthNotify_rules cfgOne 10 fwStarted STARTED).1 rfl⟩

/-- Claim C6: from STOPPED, a start-flagged ping: when the start sequence
succeeds, the new status is STARTING, ready is false, stopAt is
now + idleTimeout (strictly after now whenever idleTimeout is positive) and
the Pong carries no error; when it fails, the status stays STOPPED and the
Pong carries the error. -/
theorem stopped_startPing (env : AwsEnv) (cfg : Config) (now : Nat)
    (fw : CoreState) (p : Ping) (hst : fw.status = STOPPED)
    (hreq : p.requestStart = true) :
    (startSequence env cfg = .ok () →
      (RecvPing env cfg now fw p).1.status = STARTING ∧
      (RecvPing env cfg now fw p).1.ready = false ∧
      (RecvPing env cfg now fw p).1.stopAt = now + cfg.idleTimeout ∧
      (0 < cfg.idleTimeout → now < (RecvPing env cfg now fw p).1.stopAt) ∧
      (RecvPing env cfg now fw p).2.Err = none) ∧
    (∀ e, startSequence env cfg = .error e →
      (RecvPing env cfg now fw p).1.status = STOPPED ∧
      (RecvPing env cfg now fw p).2.Err = some e) := by
  constructor
  · intro hok
    simp [RecvPing, RecvPingCore, pongOf, hst, hreq, Start, hok]
  · intro e herr
    simp [RecvPing, RecvPingCore, pongOf, hst, hreq, Start, herr]

/-- Witness for C6 on the success and the failure environment. -/
theorem stopped_startPing_witness :
    (RecvPing okEnv cfgOne 10 (New 3) startPing).1.status = STARTING ∧
    (RecvPing okEnv cfgOne 10 (New 3) startPing).1.ready = false ∧
    (RecvPing okEnv cfgOne 10 (New 3) startPing).1.stopAt =
      10 + cfgOne.idleTimeout ∧
    10 < (RecvPing okEnv cfgOne 10 (New 3) startPing).1.stopAt ∧
    (RecvPing okEnv cfgOne 10 (New 3) startPing).2.Err = none ∧
    (RecvPing failEnv cfgOne 10 (New 3) startPing).1.status = STOPPED ∧
    (RecvPing failEnv cfgOne 10 (New 3) startPing).2.Err = some "aws down" := by
  have hok := (stopped_startPing okEnv cfgOne 10 (New 3) startPing rfl rfl).1 rfl
  have herr :=
    (stopped_startPing failEnv cfgOne 10 (New 3) startPing rfl rfl).2
      "aws down" rfl
  exact ⟨hok.1, hok.2.1, hok.2.2.1, hok.2.2.2.1 (by decide), hok.2.2.2.2,
    herr.1, herr.2⟩

/-- Claim C7 (counterexample): with idleTimeout 5, from STARTED with a
deadline of 100 (reachable through an explicit setTimeout ping), a plain
ping at now = 10 sets stopAt to 15, which is not strictly later than the
previous deadline. -/
theorem plain_ping_can_shorten_deadline :
    (RecvPing okEnv cfgOne 10
      { status := STARTED, ready := true, stopAt := 100,
        lastStarted := 1, lastStopped := 2 } plainPing).1.stopAt = 15 ∧
    ¬ (100 < (RecvPing okEnv cfgOne 10
      { status := STARTED, ready := true, stopAt := 100,
        lastStarted := 1, lastStopped := 2 } plainPing).1.stopAt) :=
  ⟨rfl, by decide⟩

/-- Claim C7 (amended): while STARTED, a plain ping (no flags, no explicit
deadline) always sets stopAt to now + idleTimeout — strictly later than the
previous deadline whenever that deadline is below now + idleTimeout, in
particular whenever it was armed from an earlier instant with the same idle
timeout — and a noop ping changes nothing, in particular not stopAt. -/
theorem started_ping_deadline (env : AwsEnv) (cfg : Config) (now : Nat)
    (fw : CoreState) (p q : Ping) (hst : fw.status = STARTED)
    (hnoopF : p.noop = false) (hstopF : p.requestStop = false)
    (hsetF : p.setTimeout = 0) (hnoop : q.noop = true) :
    (RecvPing env cfg now fw p).1.stopAt = now + cfg.idleTimeout ∧
    (fw.stopAt < now + cfg.idleTimeout →
      fw.stopAt < (RecvPing env cfg now fw p).1.stopAt) ∧
    (RecvPing env cfg now fw q).1 = fw := by
  refine ⟨?_, ?_, ?_⟩
  · simp [RecvPing, RecvPingCore, hst, hnoopF, hstopF, hsetF,
      STARTED, STOPPED]
  · intro hlt
    simpa [RecvPing, RecvPingCore, hst, hnoopF, hstopF, hsetF,
      STARTED, STOPPED] using hlt
  · simp [RecvPing, RecvPingCore, hst, hnoop, STARTED, STOPPED]

/-- Witness for the amended C7: a plain ping rearms the deadline from 4 to
15 and a noop ping leaves the state untouched. -/
theorem started_ping_deadline_witness :
    (RecvPing okEnv cfgOne 10 fwStarted plainPing).1.stopAt =
      10 + cfgOne.idleTimeout ∧
    fwStarted.stopAt < (RecvPing okEnv cfgOne 10 fwStarted plainPing).1.stopAt ∧
    (RecvPing okEnv cfgOne 10 fwStarted noopPing).1 = fwStarted := by
  have h := started_ping_deadline okEnv cfgOne 10 fwStarted plainPing noopPing
    rfl rfl rfl rfl rfl
  exact ⟨h.1, h.2.1 (by decide), h.2.2⟩

/-- Claim C8: a tick while STARTED with now ≤ stopAt changes nothing and
invokes no Stop; with now > stopAt it invokes the stop sequence exactly once
(the invocation count of the tick is 1) and sets status to STOPPING
regardless of Stop outcome. -/
theorem poll_started (env : AwsEnv) (cfg : Config) (now : Nat)
    (fw : CoreState) (hst : fw.status = STARTED) :
    (now ≤ fw.stopAt → Poll env cfg now fw = (fw, 0)) ∧
    (fw.stopAt < now →
      (Poll env cfg now fw).2 = 1 ∧
      (Poll env cfg now fw).1.status = STOPPING) := by
  have hne : fw.status ≠ STOPPED := by rw [hst]; decide
  constructor
  · intro hle
    have : ¬ fw.stopAt < now := by omega
    simp [Poll, hst, this]
  · intro hlt
    simp [Poll, hst, hlt]

/-- Witness for C8: a quiescent tick at now = 3 and an idle-expiry tick at
now = 10 against the deadline 4, the latter under both a succeeding and a
failing Stop environment. -/
theorem poll_started_witness :
    Poll okEnv cfgOne 3 fwStarted = (fwStarted, 0) ∧
    (Poll okEnv cfgOne 10 fwStarted).2 = 1 ∧
    (Poll okEnv cfgOne 10 fwStarted).1.status = STOPPING ∧
    (Poll failEnv cfgOne 10 fwStarted).2 = 1 ∧
    (Poll failEnv cfgOne 10 fwStarted).1.status = STOPPING := by
  have hq := (poll_started okEnv cfgOne 3 fwStarted rfl).1 (by decide)
  have hok := (poll_started okEnv cfgOne 10 fwStarted rfl).2 (by decide)
  have herr := (poll_started failEnv cfgOne 10 fwStarted rfl).2 (by decide)
  exact ⟨hq, hok.1, hok.2, herr.1, herr.2⟩

/-- Claim C9: while STARTING, STOPPING or UNHEALTHY, a ping mutates no core
field, and the single Pong produced still carries the current snapshot;
moreover in every state the one Pong produced is the snapshot of the
post-processing fields together with the recorded error. -/
theorem ping_other_states (env : AwsEnv) (cfg : Config) (now : Nat)
    (fw : CoreState) (p : Ping)
    (hst : fw.status = STARTING ∨ fw.status = STOPPING ∨
      fw.status = UNHEALTHY) :
    (RecvPing env cfg now fw p).1 = fw ∧
    (RecvPing env cfg now fw p).2 = pongOf fw none ∧
    (∀ fw2 p2, (RecvPing env cfg now fw2 p2).2 =
      pongOf (RecvPing env cfg now fw2 p2).1
        (RecvPingCore env cfg now fw2 p2).2) := by
  have hne : fw.status ≠ STOPPED ∧ fw.status ≠ STARTED := by
    rcases hst with h | h | h <;> rw [h] <;> exact ⟨by decide, by decide⟩
  refine ⟨?_, ?_, fun fw2 p2 => rfl⟩
  · simp [RecvPing, RecvPingCore, hne.1, hne.2]
  · simp [RecvPing, RecvPingCore, pongOf, hne.1, hne.2]

/-- Witness for C9: a start-flagged ping while STARTING is a pure no-op that
still yields the snapshot Pong. -/
theorem ping_other_states_witness :
    (RecvPing okEnv cfgOne 10 fwStarting startPing).1 = fwStarting ∧
    (RecvPing okEnv cfgOne 10 fwStarting startPing).2 = pongOf fwStarting none := by
  have h := ping_other_states okEnv cfgOne 10 fwStarting startPing (Or.inl rfl)
  exact ⟨h.1, h.2.1⟩

end Flywheel
